import Mathlib

/-!
Shallow embedding of the policy-pulse frontend client (a TypeScript /
React application) into Lean 4, together with theorems settling the
behavioural claims about it.

The embedded pieces are:

* the HTTP wrapper `apiRequest` and its error type `ApiError`
  (`src/lib/api.ts`);
* the upload orchestrator `analysisApi.uploadFiles` and the job-creation
  mutation built on it (`src/lib/api.ts`, `src/hooks/use-analysis.ts`);
* the status-polling hook `useAnalysisStatus`: its `enabled` expression
  and its `refetchInterval` callback (`src/hooks/use-analysis.ts`);
* the query-cache effects of `useCreateAnalysis.onSuccess`
  (`src/hooks/use-analysis.ts`);
* the onboarding wizard page: its question list, `canProceed`,
  `handleNext`, `handleBack`, `setAnswer`, and the already-completed
  guard (`src/app/onboarding/page.tsx`).

Network I/O is modelled by passing the outcome of each network call as
an explicit parameter (an oracle), and by recording the requests a
computation issues as an explicit event trace.  JavaScript truthiness,
where the source relies on it, is modelled explicitly.
-/

namespace PolicyPulse

/-! ### The normalized API error (`ApiError` in src/lib/api.ts)

The TypeScript class extends `Error`; the fields the application reads
are `message`, the optional HTTP `status`, and the optional
machine-readable `code`. -/

structure ApiError where
  message : String
  status : Option Nat := none
  code : Option String := none
  deriving Repr, DecidableEq

/-- Truthiness of a JavaScript string: `undefined` (here `none`) and the
empty string are falsy, every other string is truthy. -/
def jsTruthyStr : Option String → Bool
  | none => false
  | some s => !(s == "")

/-- Semantics of a JavaScript expression `a || b` on an optional string
`a` with default `b`: the default is taken when `a` is `undefined` or
the (falsy) empty string. -/
def jsOrStr (a : Option String) (b : String) : String :=
  match a with
  | none => b
  | some s => if s == "" then b else s

/-! ### The HTTP wrapper `apiRequest` (src/lib/api.ts, lines 17-56)

The wrapper performs a `fetch` and normalizes every failure into an
`ApiError`.  The outcome of the `fetch` call is passed in explicitly:
either a response arrived (possibly non-2xx), or the transport failed
before any response existed.  For a non-2xx response the wrapper tries
to parse the body as JSON (`response.json().catch(() => ({}))`); we
record the result of that parse as the optional fields `bodyMessage`
and `bodyCode` (both absent when the body does not parse or lacks the
field).  The success-path payload is irrelevant to the claims and is
collapsed to `Unit`. -/

structure HttpResponse where
  ok : Bool
  status : Nat
  statusText : String
  bodyMessage : Option String := none
  bodyCode : Option String := none
  deriving Repr, DecidableEq

inductive FetchOutcome where
  /-- The `fetch` promise resolved with a response. -/
  | response (r : HttpResponse)
  /-- The `fetch` promise rejected (network/transport error).  The
  payload is the thrown value's `.message` when it was an `Error`,
  `none` when something other than an `Error` was thrown. -/
  | transportFailure (msg : Option String)
  deriving Repr, DecidableEq

/-- The default message built for a non-2xx response whose body gives
no usable message: backtick-free rendering of
`HTTP ${response.status}: ${response.statusText}`. -/
def httpFallbackMessage (status : Nat) (statusText : String) : String :=
  "HTTP " ++ toString status ++ ": " ++ statusText

/-- Shallow embedding of `apiRequest` (src/lib/api.ts, lines 17-56),
parameterized by the outcome of the `fetch` call. -/
def apiRequest (outcome : FetchOutcome) : Except ApiError Unit :=
  match outcome with
  | .response r =>
    if r.ok then
      .ok ()
    else
      .error
        { message := jsOrStr r.bodyMessage (httpFallbackMessage r.status r.statusText)
          status := some r.status
          code := r.bodyCode }
  | .transportFailure msg =>
    .error { message := msg.getD "Network error occurred" }

/-! ### Analysis jobs (shape from `@/types/api`)

The type declaration file is not part of the sources; the fields the
embedded code reads are `job_id` and `status`.  Statuses are open-ended
strings (`pending`, `processing`, `completed`, `failed`, or anything
else the backend may produce). -/

structure AnalysisJob where
  job_id : String
  status : String
  deriving Repr, DecidableEq

/-! ### The status poller `useAnalysisStatus`
(src/hooks/use-analysis.ts, lines 58-81) -/

/-- The `enabled` expression of the status query:
`enabled && !!jobId`.  The `jobId` is `none` when the caller passes
`undefined` at runtime. -/
def statusQueryEnabled (jobId : Option String) (enabled : Bool) : Bool :=
  enabled && jsTruthyStr jobId

/-- The `refetchInterval` callback of the status query.  TanStack Query
invokes it with the query object; `query.state.data` is the last
successfully fetched value (`none` before any fetch succeeded), never
the value of a request still in flight.  Returning `none` models
returning `false` (stop polling); returning `some n` schedules the next
fetch after `n` milliseconds. -/
def refetchInterval (lastData : Option AnalysisJob) : Option Nat :=
  let status := lastData.map (·.status)
  if status = some "completed" || status = some "failed" then
    none
  else
    some 3000

/-- Outcome of mounting the status query: when the query is disabled the
library never invokes the query function (no fetch is issued) and the
query sits in an idle, error-free state; when enabled, the fetch
outcome (supplied as an oracle) becomes the query result. -/
inductive StatusQueryOutcome where
  | disabledIdle
  | ran (result : Except ApiError AnalysisJob)
  deriving Repr

/-- Mounting `useAnalysisStatus jobId enabled` against a fetch oracle. -/
def runStatusQuery (jobId : Option String) (enabled : Bool)
    (fetchResult : Except ApiError AnalysisJob) : StatusQueryOutcome :=
  if statusQueryEnabled jobId enabled then .ran fetchResult else .disabledIdle

/-! ### The upload orchestrator `analysisApi.uploadFiles`
(src/lib/api.ts, lines 68-129) and the job-creation mutation
(src/hooks/use-analysis.ts, lines 19-43)

`uploadFiles` performs, strictly in sequence: the baseline init request,
the baseline storage (S3) transfer, the renewal init request, the
renewal storage transfer.  Each network outcome is an oracle field of
`UploadEnv`; the requests actually issued are recorded as a trace. -/

structure UploadInitResponse where
  upload_url : String
  fields : List (String × String)
  s3_key : String
  expires_at : String
  max_file_size_mb : Nat
  deriving Repr, DecidableEq

/-- Outcome of a direct `fetch` POST to the storage `upload_url`:
`ok` is `response.ok`, `status` is `response.status`. -/
structure S3Outcome where
  ok : Bool
  status : Nat
  deriving Repr, DecidableEq

/-- Oracles for the four network calls `uploadFiles` can issue. -/
structure UploadEnv where
  baselineInit : Except ApiError UploadInitResponse
  baselineS3 : S3Outcome
  renewalInit : Except ApiError UploadInitResponse
  renewalS3 : S3Outcome

/-- Requests issued during job creation, in issue order. -/
inductive UploadEvent where
  | initBaseline
  | s3Baseline
  | initRenewal
  | s3Renewal
  | createAnalysisReq
  deriving Repr, DecidableEq

/-- Shallow embedding of `analysisApi.uploadFiles`: returns the trace of
issued requests and either the pair of storage keys or the `ApiError`
thrown.  An `init` request that fails propagates the wrapper's error;
a non-ok storage response raises the file-specific `ApiError` with the
storage response's status. -/
def uploadFiles (env : UploadEnv) :
    List UploadEvent × Except ApiError (String × String) :=
  match env.baselineInit with
  | .error e => ([.initBaseline], .error e)
  | .ok baselineInitResp =>
    if !env.baselineS3.ok then
      ([.initBaseline, .s3Baseline],
        .error { message := "Failed to upload baseline file to S3"
                 status := some env.baselineS3.status })
    else
      match env.renewalInit with
      | .error e => ([.initBaseline, .s3Baseline, .initRenewal], .error e)
      | .ok renewalInitResp =>
        if !env.renewalS3.ok then
          ([.initBaseline, .s3Baseline, .initRenewal, .s3Renewal],
            .error { message := "Failed to upload renewal file to S3"
                     status := some env.renewalS3.status })
        else
          ([.initBaseline, .s3Baseline, .initRenewal, .s3Renewal],
            .ok (baselineInitResp.s3_key, renewalInitResp.s3_key))

/-- Shallow embedding of the `mutationFn` of `useCreateAnalysis`
(src/hooks/use-analysis.ts, lines 20-43): run `uploadFiles`; only when
it succeeds, issue the create-analysis request, whose outcome is the
oracle `createResult`. -/
def createAnalysisMutation (env : UploadEnv)
    (createResult : Except ApiError AnalysisJob) :
    List UploadEvent × Except ApiError AnalysisJob :=
  match uploadFiles env with
  | (trace, .error e) => (trace, .error e)
  | (trace, .ok _keys) => (trace ++ [.createAnalysisReq], createResult)

/-- The full sequential order of requests job creation can issue. -/
def fullUploadOrder : List UploadEvent :=
  [.initBaseline, .s3Baseline, .initRenewal, .s3Renewal, .createAnalysisReq]

/-! ### The query cache effects of `useCreateAnalysis.onSuccess`
(src/hooks/use-analysis.ts, lines 44-54) -/

/-- The slice of the TanStack Query cache the hooks touch: the status
entries keyed by job id (`ANALYSIS_QUERY_KEYS.status jobId`) and the
history entry with its staleness mark. -/
structure QueryCache where
  statusEntries : List (String × AnalysisJob)
  historyStale : Bool
  deriving Repr, DecidableEq

/-- The semantics of `queryClient.setQueryData` on a status key: the new
value shadows any previous entry under the same job id. -/
def setStatusQueryData (c : QueryCache) (jobId : String) (job : AnalysisJob) :
    QueryCache :=
  { c with statusEntries := (jobId, job) :: c.statusEntries }

/-- The semantics of `queryClient.invalidateQueries` on the history key:
the cached history view is marked stale (eligible for refetch). -/
def invalidateHistoryQueries (c : QueryCache) : QueryCache :=
  { c with historyStale := true }

/-- Reading a status entry from the cache (`queryClient.getQueryData`). -/
def getStatusQueryData (c : QueryCache) (jobId : String) : Option AnalysisJob :=
  c.statusEntries.lookup jobId

/-- Shallow embedding of the `onSuccess` callback of `useCreateAnalysis`:
cache the new job's status under its id, then invalidate history. -/
def createAnalysisOnSuccess (data : AnalysisJob) (c : QueryCache) : QueryCache :=
  invalidateHistoryQueries (setStatusQueryData c data.job_id data)

/-! ### The onboarding wizard (src/app/onboarding/page.tsx) -/

inductive QType where
  | text
  | boolean
  deriving Repr, DecidableEq

structure Question where
  id : String
  type : QType
  deriving Repr, DecidableEq

/-- The five onboarding questions (ids and types as declared in
`QUESTIONS`, page.tsx lines 28-71; icon, title, subtitle and
placeholder are presentation-only and not modelled). -/
def QUESTIONS : List Question :=
  [ { id := "location", type := .text },
    { id := "climate", type := .boolean },
    { id := "events", type := .boolean },
    { id := "errorsAndOmissions", type := .boolean },
    { id := "payments", type := .boolean } ]

/-- An answer value: the wizard stores strings for text questions and
booleans for yes/no questions (`Record<string, string | boolean>`). -/
inductive Ans where
  | str (s : String)
  | bool (b : Bool)
  deriving Repr, DecidableEq

/-- The accumulated answer map, keyed by question id. -/
def AnswerMap := List (String × Ans)
  deriving Repr, DecidableEq

/-- Object-spread update `{...prev, [id]: value}` (the `setAnswers`
updater): the new binding shadows any earlier one for the same key. -/
def insertAnswer (ans : AnswerMap) (id : String) (v : Ans) : AnswerMap :=
  (id, v) :: ans

/-- Reading `answers[id]` (`undefined` when the key is absent). -/
def lookupAnswer (ans : AnswerMap) (id : String) : Option Ans :=
  List.lookup id ans

/-- Shallow embedding of `canProceed` (page.tsx lines 102-105): for a
text question, `typeof currentAnswer === "string" &&
currentAnswer.trim().length > 0`; for a boolean question,
`currentAnswer !== undefined`. -/
def canProceed (q : Question) (answers : AnswerMap) : Bool :=
  match q.type with
  | .text =>
    match lookupAnswer answers q.id with
    | some (.str s) => decide (0 < s.trim.length)
    | _ => false
  | .boolean => (lookupAnswer answers q.id).isSome

/-- A value stored in the identity provider's `unsafeMetadata` object,
as far as the wizard reads or writes one. -/
inductive JsVal where
  | bool (b : Bool)
  | str (s : String)
  | answerMap (m : AnswerMap)

/-- The identity provider's metadata object, as a key-to-value map. -/
def Metadata := String → Option JsVal

/-- Setting one key of a JavaScript object: the effect of listing the
key in an object literal after spreading the old object. -/
def objSet (m : Metadata) (k : String) (v : JsVal) : Metadata :=
  fun k2 => if k2 == k then some v else m k2

/-- The object the wizard writes on submission:
`{...user.unsafeMetadata, hasCompletedOnboarding: true,
onboardingAnswers: answers}` (page.tsx lines 112-116). -/
def updatedMetadata (meta : Metadata) (answers : AnswerMap) : Metadata :=
  objSet (objSet meta "hasCompletedOnboarding" (.bool true))
    "onboardingAnswers" (.answerMap answers)

/-- Truthiness of a JavaScript metadata value; `none` models
`undefined`, which is falsy, the empty string is falsy, and any object
is truthy. -/
def jsTruthy : Option JsVal → Bool
  | none => false
  | some (.bool b) => b
  | some (.str s) => !(s == "")
  | some (.answerMap _) => true

/-- The wizard's mutable state: `currentStep`, `answers` and
`isSubmitting` (page.tsx lines 77-79). -/
structure WizardState where
  currentStep : Nat
  answers : AnswerMap
  isSubmitting : Bool

/-- Externally visible effects the wizard handlers can perform: a
metadata write via `user.update`, or a router navigation. -/
inductive WizardEffect where
  | metadataWrite (m : Metadata)
  | navigate (path : String)

/-- Shallow embedding of `handleNext` (page.tsx lines 107-126).  On the
last step it sets `isSubmitting`, issues the single `user.update` write
of the merged metadata, and then either navigates to the dashboard
(when the write resolves, `updateOk = true`) or clears `isSubmitting`
(when the write rejects).  On a non-last step it increments the step.
`meta` is the user's current `unsafeMetadata`; the returned list holds
the effects in issue order. -/
def handleNext (meta : Metadata) (updateOk : Bool) (s : WizardState) :
    WizardState × List WizardEffect :=
  if s.currentStep = QUESTIONS.length - 1 then
    if updateOk then
      ({ s with isSubmitting := true },
        [.metadataWrite (updatedMetadata meta s.answers),
          .navigate "/dashboard"])
    else
      ({ s with isSubmitting := false },
        [.metadataWrite (updatedMetadata meta s.answers)])
  else
    ({ s with currentStep := s.currentStep + 1 }, [])

/-- Shallow embedding of `handleBack` (page.tsx lines 128-132). -/
def handleBack (s : WizardState) : WizardState :=
  if s.currentStep > 0 then { s with currentStep := s.currentStep - 1 } else s

/-- Shallow embedding of `setAnswer` (page.tsx lines 134-136) applied to
the current question `q`. -/
def setAnswer (q : Question) (v : Ans) (s : WizardState) : WizardState :=
  { s with answers := insertAnswer s.answers q.id v }

/-- Number of identity-provider writes in an effect list. -/
def writeCount : List WizardEffect → Nat
  | [] => 0
  | .metadataWrite _ :: rest => writeCount rest + 1
  | _ :: rest => writeCount rest

/-- The metadata objects written, in order. -/
def writtenMetas : List WizardEffect → List Metadata
  | [] => []
  | .metadataWrite m :: rest => m :: writtenMetas rest
  | _ :: rest => writtenMetas rest

/-- Whether the effect list navigates to `path`. -/
def navigatesTo (path : String) : List WizardEffect → Bool
  | [] => false
  | .navigate p :: rest => p == path || navigatesTo path rest
  | _ :: rest => navigatesTo path rest

/-- User-interface events the rendered wizard page can deliver to the
handlers: typing in the text input (rendered only for text questions),
clicking Yes or No (rendered only for boolean questions), the Next
button (`updateOk` is the oracle for the submission write on the last
step), and the Back button. -/
inductive UIEvent where
  | input (s : String)
  | clickYes
  | clickNo
  | next (updateOk : Bool)
  | back

/-- An empty metadata object. -/
def emptyMetadata : Metadata := fun _ => none

/-- One state transition of the mounted wizard page.  The state part of
`handleNext` does not depend on the metadata argument, so it is applied
to the empty object here. -/
def stepUI (s : WizardState) (e : UIEvent) : WizardState :=
  match e with
  | .input str =>
    match QUESTIONS.get? s.currentStep with
    | some q => if q.type = .text then setAnswer q (.str str) s else s
    | none => s
  | .clickYes =>
    match QUESTIONS.get? s.currentStep with
    | some q => if q.type = .boolean then setAnswer q (.bool true) s else s
    | none => s
  | .clickNo =>
    match QUESTIONS.get? s.currentStep with
    | some q => if q.type = .boolean then setAnswer q (.bool false) s else s
    | none => s
  | .next ok => (handleNext emptyMetadata ok s).1
  | .back => handleBack s

/-- The state the page mounts with: `useState(0)`, `useState({})`,
`useState(false)`. -/
def initialWizardState : WizardState :=
  { currentStep := 0, answers := [], isSubmitting := false }

/-- States the mounted wizard can actually be in. -/
inductive Reachable : WizardState → Prop where
  | init : Reachable initialWizardState
  | step : ∀ {s} (e : UIEvent), Reachable s → Reachable (stepUI s e)

/-- Whether an answer value is of the type its question declares. -/
def answerMatches (t : QType) (a : Ans) : Bool :=
  match t, a with
  | .text, .str _ => true
  | .boolean, .bool _ => true
  | _, _ => false

/-- Every stored answer for a question id has that question's type. -/
def wellTypedAnswers (ans : AnswerMap) : Bool :=
  QUESTIONS.all fun q =>
    match lookupAnswer ans q.id with
    | some a => answerMatches q.type a
    | none => true

/-- Modelled from the spec: the type constraint the claims state for
the forward transition — a text question requires a string answer that
is non-empty after trimming, a yes/no question requires a defined
boolean (either value). -/
def specTypeConstraint (q : Question) (a : Option Ans) : Bool :=
  match q.type, a with
  | .text, some (.str s) => !(s.trim == "")
  | .boolean, some (.bool _) => true
  | _, _ => false

/-! ### The already-completed guard (page.tsx lines 81-96) -/

/-- The slice of the Clerk user object the guard reads. -/
structure ClerkUser where
  unsafeMetadata : Metadata

/-- What `useAuth` and `useUser` report when the page renders. -/
structure AuthView where
  isLoaded : Bool
  userId : Option String
  user : Option ClerkUser

/-- Shallow embedding of `alreadyCompleted` (page.tsx lines 81-82):
`isLoaded && !!user?.unsafeMetadata?.hasCompletedOnboarding`. -/
def alreadyCompleted (a : AuthView) : Bool :=
  a.isLoaded &&
    jsTruthy (a.user.bind fun u => u.unsafeMetadata "hasCompletedOnboarding")

/-- What the page renders: the loading spinner (no question), a
question card, or a crash (the unreachable out-of-range lookup, where
the JavaScript would throw on `question.id`). -/
inductive PageRender where
  | spinner
  | questionCard (q : Question)
  | crash

/-- The render branch of the page (page.tsx lines 90-98 and onward):
the spinner with no question when auth is not loaded, there is no
signed-in user id, or onboarding is already completed; the current
question card otherwise. -/
def renderOnboarding (a : AuthView) (s : WizardState) : PageRender :=
  if !a.isLoaded || !(jsTruthyStr a.userId) || alreadyCompleted a then
    .spinner
  else
    match QUESTIONS.get? s.currentStep with
    | some q => .questionCard q
    | none => .crash

/-- The redirect effect (page.tsx lines 84-88): push `/dashboard` as
soon as `alreadyCompleted` holds. -/
def onboardingRedirect (a : AuthView) : Option String :=
  if alreadyCompleted a then some "/dashboard" else none

/-! ### Concrete inputs used to evaluate the embedded operations -/

/-- A freshly created job as the backend would return it. -/
def jobExample : AnalysisJob := { job_id := "job-1", status := "pending" }

/-- A plausible `/uploads/init` response. -/
def initRespExample : UploadInitResponse :=
  { upload_url := "https://bucket.example/upload"
    fields := [("key", "uploads/abc")]
    s3_key := "uploads/abc"
    expires_at := "2026-01-01T00:00:00Z"
    max_file_size_mb := 25 }

/-- An upload environment in which the baseline storage transfer is
rejected with a 403 and everything else would succeed. -/
def baselineFailEnv : UploadEnv :=
  { baselineInit := .ok initRespExample
    baselineS3 := { ok := false, status := 403 }
    renewalInit := .ok initRespExample
    renewalS3 := { ok := true, status := 204 } }

/-- A non-2xx response whose JSON body parses with a message and a
machine-readable code. -/
def notFoundResponse : HttpResponse :=
  { ok := false, status := 404, statusText := "Not Found"
    bodyMessage := some "Analysis not found", bodyCode := some "not_found" }

/-- A non-2xx response whose JSON body parses and carries the message
field with the empty string. -/
def emptyMessageResponse : HttpResponse :=
  { ok := false, status := 500, statusText := "Internal Server Error"
    bodyMessage := some "", bodyCode := none }

/-- A complete, well-typed answer map for all five questions (most
recent answer first, as the spread-update stores them). -/
def filledAnswers : AnswerMap :=
  [ ("payments", .bool true)
  , ("errorsAndOmissions", .bool false)
  , ("events", .bool true)
  , ("climate", .bool false)
  , ("location", .str "New York, NY") ]

/-- The wizard on its last question with every answer collected. -/
def lastStepState : WizardState :=
  { currentStep := QUESTIONS.length - 1
    answers := filledAnswers
    isSubmitting := false }

/-- A user whose identity-provider metadata reports onboarding as
completed. -/
def completedUserExample : ClerkUser :=
  { unsafeMetadata := objSet emptyMetadata "hasCompletedOnboarding" (.bool true) }

/-- The auth view for that user once Clerk has loaded. -/
def completedAuthView : AuthView :=
  { isLoaded := true, userId := some "user-1", user := some completedUserExample }

/-- The wizard state after typing a location into the first question. -/
def typedState : WizardState :=
  stepUI initialWizardState (.input "New York, NY")

/-! ## Helper lemmas -/

theorem string_ne_empty_iff_length_pos (s : String) : s ≠ "" ↔ 0 < s.length := by
  cases s with
  | mk data =>
    constructor
    · intro h
      cases data with
      | nil => exact absurd rfl h
      | cons c cs => simp [String.length]
    · intro h he
      rw [he] at h
      simp [String.length] at h

theorem decide_length_pos_eq_not_beq_empty (s : String) :
    decide (0 < s.length) = !(s == "") := by
  by_cases he : s = ""
  · rw [he]
    decide
  · have hp : 0 < s.length := (string_ne_empty_iff_length_pos s).mp he
    simp [hp, he]

theorem questions_id_injective :
    ∀ q ∈ QUESTIONS, ∀ q2 ∈ QUESTIONS, q.id = q2.id → q = q2 := by decide

theorem lookup_insertAnswer (ans : AnswerMap) (id k : String) (v : Ans) :
    lookupAnswer (insertAnswer ans id v) k =
      if k = id then some v else lookupAnswer ans k := by
  simp [lookupAnswer, insertAnswer, List.lookup]
  split <;> simp_all

theorem wellTyped_insert {ans : AnswerMap} {q : Question} {v : Ans}
    (hq : q ∈ QUESTIONS) (hv : answerMatches q.type v = true)
    (h : wellTypedAnswers ans = true) :
    wellTypedAnswers (insertAnswer ans q.id v) = true := by
  rw [wellTypedAnswers, List.all_eq_true] at h ⊢
  intro q2 hq2
  rw [lookup_insertAnswer]
  by_cases hid : q2.id = q.id
  · have hqq : q2 = q := questions_id_injective q2 hq2 q hq hid
    subst hqq
    simp [hid, hv]
  · rw [if_neg hid]
    exact h q2 hq2

theorem handleNext_state_answers (meta : Metadata) (ok : Bool) (s : WizardState) :
    (handleNext meta ok s).1.answers = s.answers := by
  rw [handleNext]
  split <;> [skip; rfl]
  cases ok <;> rfl

theorem stepUI_preserves_lt {s : WizardState}
    (h : s.currentStep < QUESTIONS.length) (e : UIEvent) :
    (stepUI s e).currentStep < QUESTIONS.length := by
  cases e with
  | input str =>
    rw [stepUI]
    split
    · split <;> exact h
    · exact h
  | clickYes =>
    rw [stepUI]
    split
    · split <;> exact h
    · exact h
  | clickNo =>
    rw [stepUI]
    split
    · split <;> exact h
    · exact h
  | next ok =>
    rw [stepUI, handleNext]
    split
    · cases ok <;> exact h
    · next hne =>
      show s.currentStep + 1 < QUESTIONS.length
      have hlen : QUESTIONS.length = 5 := rfl
      omega
  | back =>
    rw [stepUI, handleBack]
    split
    · show s.currentStep - 1 < QUESTIONS.length
      omega
    · exact h

theorem stepUI_preserves_wellTyped {s : WizardState}
    (h : wellTypedAnswers s.answers = true) (e : UIEvent) :
    wellTypedAnswers (stepUI s e).answers = true := by
  cases e with
  | input str =>
    rw [stepUI]
    split
    · next q hq =>
      split
      · next ht =>
        exact wellTyped_insert (List.get?_mem hq) (by rw [ht]; rfl) h
      · exact h
    · exact h
  | clickYes =>
    rw [stepUI]
    split
    · next q hq =>
      split
      · next ht =>
        exact wellTyped_insert (List.get?_mem hq) (by rw [ht]; rfl) h
      · exact h
    · exact h
  | clickNo =>
    rw [stepUI]
    split
    · next q hq =>
      split
      · next ht =>
        exact wellTyped_insert (List.get?_mem hq) (by rw [ht]; rfl) h
      · exact h
    · exact h
  | next ok =>
    rw [stepUI, handleNext_state_answers]
    exact h
  | back =>
    rw [stepUI, handleBack]
    split <;> exact h

theorem reachable_wizard_inv {s : WizardState} (h : Reachable s) :
    s.currentStep < QUESTIONS.length ∧ wellTypedAnswers s.answers = true := by
  induction h with
  | init => exact ⟨by decide, by decide⟩
  | step e _ ih =>
    exact ⟨stepUI_preserves_lt ih.1 e, stepUI_preserves_wellTyped ih.2 e⟩

/-! ## Claim theorems -/

/-- C1: each poll tick of the status poller decides from the status
field of the last successfully fetched job value (the query state's
data, never a value still being requested): when that status is
`completed` or `failed` no further fetch is scheduled, and for every
other last-known value — `pending`, `processing`, any unrecognized
string, or no data yet — exactly one further fetch is scheduled after
3000 ms, the fixed 3-second interval. -/
theorem refetchInterval_terminal_decision (lastData : Option AnalysisJob) :
    (lastData.map (·.status) = some "completed" ∨
        lastData.map (·.status) = some "failed" →
      refetchInterval lastData = none) ∧
    (lastData.map (·.status) ≠ some "completed" →
      lastData.map (·.status) ≠ some "failed" →
      refetchInterval lastData = some 3000) := by
  constructor
  · intro h
    cases h with
    | inl h => simp [refetchInterval, h]
    | inr h => simp [refetchInterval, h]
  · intro h1 h2
    simp [refetchInterval, h1, h2]

/-- Witness for C1: with a last-known status of `pending`, the poller
schedules the next fetch after 3000 ms. -/
theorem refetchInterval_terminal_decision_witness :
    refetchInterval (some { job_id := "job-1", status := "pending" }) =
      some 3000 :=
  (refetchInterval_terminal_decision
      (some { job_id := "job-1", status := "pending" })).2
    (by decide) (by decide)

/-- C6: after successful job creation, the `onSuccess` callback leaves
the new job readable from the status cache under its own job id with no
further fetch, and marks the cached job-history view stale. -/
theorem createAnalysisOnSuccess_cache_effects (data : AnalysisJob)
    (c : QueryCache) :
    getStatusQueryData (createAnalysisOnSuccess data c) data.job_id =
        some data ∧
      (createAnalysisOnSuccess data c).historyStale = true := by
  constructor
  · simp [getStatusQueryData, createAnalysisOnSuccess,
      invalidateHistoryQueries, setStatusQueryData, List.lookup]
  · rfl

/-- C8: an empty or missing job identifier disables the status query
entirely: the query's `enabled` flag is false, so the library issues no
fetch and reports no error — the query stays idle whatever the fetch
oracle would have returned. -/
theorem statusQuery_disabled_on_blank_jobId (jobId : Option String)
    (enabled : Bool) (fetchResult : Except ApiError AnalysisJob)
    (h : jobId = none ∨ jobId = some "") :
    statusQueryEnabled jobId enabled = false ∧
      runStatusQuery jobId enabled fetchResult = .disabledIdle := by
  have he : statusQueryEnabled jobId enabled = false := by
    cases h with
    | inl h => rw [h]; simp [statusQueryEnabled, jsTruthyStr]
    | inr h => rw [h]; simp [statusQueryEnabled, jsTruthyStr]
  exact ⟨he, by simp [runStatusQuery, he]⟩

/-- Witness for C8: the empty job id yields a disabled, idle query even
though the oracle had a successful fetch to offer. -/
theorem statusQuery_disabled_on_blank_jobId_witness :
    statusQueryEnabled (some "") true = false ∧
      runStatusQuery (some "") true (.ok jobExample) = .disabledIdle :=
  statusQuery_disabled_on_blank_jobId (some "") true (.ok jobExample)
    (Or.inr rfl)

/-- C9: the submission write preserves every pre-existing metadata key
other than `hasCompletedOnboarding` and `onboardingAnswers`, and sets
exactly those two keys to `true` and to the accumulated answer map. -/
theorem updatedMetadata_frame (meta : Metadata) (answers : AnswerMap) :
    updatedMetadata meta answers "hasCompletedOnboarding" =
        some (.bool true) ∧
      updatedMetadata meta answers "onboardingAnswers" =
        some (.answerMap answers) ∧
      ∀ k, k ≠ "hasCompletedOnboarding" → k ≠ "onboardingAnswers" →
        updatedMetadata meta answers k = meta k := by
  refine ⟨rfl, rfl, ?_⟩
  intro k h1 h2
  simp [updatedMetadata, objSet, h1, h2]

/-- Witness for C9: a key the wizard never touches is unchanged by the
submission write. -/
theorem updatedMetadata_frame_witness :
    updatedMetadata emptyMetadata [] "companyName" = none := by
  have h := (updatedMetadata_frame emptyMetadata []).2.2 "companyName"
    (by decide) (by decide)
  simpa [emptyMetadata] using h

/-- C5: when auth has loaded and the identity provider reports the
onboarding-completed flag, the wizard page immediately pushes the
dashboard route and renders only the spinner — no question — whatever
wizard state it holds. -/
theorem onboarding_guard_redirects (a : AuthView) (u : ClerkUser)
    (s : WizardState) (hLoaded : a.isLoaded = true) (hUser : a.user = some u)
    (hFlag : u.unsafeMetadata "hasCompletedOnboarding" = some (.bool true)) :
    onboardingRedirect a = some "/dashboard" ∧
      renderOnboarding a s = .spinner := by
  have hc : alreadyCompleted a = true := by
    simp [alreadyCompleted, hLoaded, hUser, hFlag, jsTruthy]
  constructor
  · simp [onboardingRedirect, hc]
  · simp [renderOnboarding, hc]

/-- Witness for C5: a loaded view of a user with the flag set redirects
to the dashboard and renders the spinner. -/
theorem onboarding_guard_redirects_witness :
    onboardingRedirect completedAuthView = some "/dashboard" ∧
      renderOnboarding completedAuthView initialWizardState = .spinner :=
  onboarding_guard_redirects completedAuthView completedUserExample
    initialWizardState rfl rfl rfl

/-- C7 counterexample: a non-2xx response whose JSON body parses and
carries the message field set to the empty string.  The claim says the
normalized error then carries the body's message; the code instead
discards the falsy empty string (JavaScript `||`) and uses the fallback
`HTTP 500: Internal Server Error`, so the error's message differs from
the parsed body's message. -/
theorem apiRequest_empty_body_message_fallback :
    apiRequest (.response emptyMessageResponse) =
        .error { message := "HTTP 500: Internal Server Error"
                 status := some 500, code := none } ∧
      emptyMessageResponse.bodyMessage = some "" ∧
      "HTTP 500: Internal Server Error" ≠ "" := by
  refine ⟨?_, rfl, by decide⟩
  rfl

/-- C7 amended: every HTTP-request failure normalizes to the single
error type `ApiError`.  A non-2xx response yields an error carrying the
response's status, the body's code when the body parses with one, and
the body's message when the body parses with a non-empty message
(an empty or missing message falls back to the generic
`HTTP status: statusText` text); a network-transport error (no response
received) yields an error with a message and no status. -/
theorem apiRequest_error_normalization (r : HttpResponse) (m : String) :
    (r.ok = false →
      ∃ e : ApiError, apiRequest (.response r) = .error e ∧
        e.status = some r.status ∧
        e.code = r.bodyCode ∧
        (r.bodyMessage = some m → m ≠ "" → e.message = m) ∧
        (r.bodyMessage = none ∨ r.bodyMessage = some "" →
          e.message = httpFallbackMessage r.status r.statusText)) ∧
    (∀ mm, apiRequest (.transportFailure (some mm)) =
      .error { message := mm, status := none, code := none }) ∧
    apiRequest (.transportFailure none) =
      .error { message := "Network error occurred"
               status := none, code := none } := by
  refine ⟨?_, fun mm => rfl, rfl⟩
  intro hok
  refine ⟨{ message := jsOrStr r.bodyMessage
              (httpFallbackMessage r.status r.statusText)
            status := some r.status
            code := r.bodyCode },
    by simp [apiRequest, hok], rfl, rfl, ?_, ?_⟩
  · intro hm hne
    rw [hm]
    simp [jsOrStr, hne]
  · intro hcase
    cases hcase with
    | inl h => rw [h]; rfl
    | inr h => rw [h]; rfl

/-- Witness for C7 (amended): a 404 with a parsed body message and code
normalizes to an error carrying all three fields. -/
theorem apiRequest_error_normalization_witness :
    ∃ e : ApiError, apiRequest (.response notFoundResponse) = .error e ∧
      e.status = some 404 ∧ e.code = some "not_found" ∧
      e.message = "Analysis not found" := by
  obtain ⟨e, he, hs, hc, hm, _⟩ :=
    (apiRequest_error_normalization notFoundResponse "Analysis not found").1
      rfl
  exact ⟨e, he, hs, hc, hm rfl (by decide)⟩

/-- C2: job creation issues its requests strictly in the order baseline
init, baseline storage transfer, renewal init, renewal storage
transfer, create-analysis (the trace is always an initial segment of
that order, so the baseline file is fully uploaded before the renewal
init begins); whenever the upload stage fails, the create-analysis
request is never issued and the failure propagates; a failed baseline
storage transfer produces the baseline-specific error, a failed renewal
storage transfer after a successful baseline upload produces the
renewal-specific error, and the two messages are distinct. -/
theorem uploadFiles_sequencing (env : UploadEnv)
    (createResult : Except ApiError AnalysisJob) :
    ((createAnalysisMutation env createResult).1 =
      fullUploadOrder.take (createAnalysisMutation env createResult).1.length) ∧
    (∀ e, (uploadFiles env).2 = .error e →
      .createAnalysisReq ∉ (createAnalysisMutation env createResult).1 ∧
      (createAnalysisMutation env createResult).2 = .error e) ∧
    (∀ b, env.baselineInit = .ok b → env.baselineS3.ok = false →
      (uploadFiles env).2 =
        .error { message := "Failed to upload baseline file to S3"
                 status := some env.baselineS3.status, code := none }) ∧
    (∀ b r2, env.baselineInit = .ok b → env.baselineS3.ok = true →
      env.renewalInit = .ok r2 → env.renewalS3.ok = false →
      (uploadFiles env).2 =
        .error { message := "Failed to upload renewal file to S3"
                 status := some env.renewalS3.status, code := none }) ∧
    ("Failed to upload baseline file to S3" ≠
      "Failed to upload renewal file to S3") := by
  obtain ⟨bi, bs3, ri, rs3⟩ := env
  refine ⟨?_, ?_, ?_, ?_, by decide⟩ <;>
    cases bi <;> cases hb : bs3.ok <;> cases ri <;> cases hr : rs3.ok <;>
      simp_all [createAnalysisMutation, uploadFiles, fullUploadOrder]

/-- Witness for C2: with the baseline storage transfer rejected (403),
the operation fails with the baseline-specific error and the
create-analysis request is absent from the issued trace. -/
theorem uploadFiles_sequencing_witness :
    (uploadFiles baselineFailEnv).2 =
        .error { message := "Failed to upload baseline file to S3"
                 status := some 403, code := none } ∧
      .createAnalysisReq ∉
        (createAnalysisMutation baselineFailEnv (.ok jobExample)).1 := by
  have h := uploadFiles_sequencing baselineFailEnv (.ok jobExample)
  have hfail := h.2.2.1 initRespExample rfl rfl
  exact ⟨hfail, (h.2.1 _ hfail).1⟩

/-- C3 counterexample: after a failed submission write from the last
question, the wizard is not in the submitting state — `handleNext`
resets `isSubmitting` to `false` (page.tsx line 121), re-enabling the
buttons, so the claim that the wizard "remains in the submitting state"
is false on the code. -/
theorem handleNext_failure_not_submitting :
    lastStepState.currentStep = QUESTIONS.length - 1 ∧
      (handleNext emptyMetadata false lastStepState).1.isSubmitting = false :=
  ⟨rfl, rfl⟩

/-- C3 amended: a forward transition from the last question issues
exactly one identity-provider write, containing the merged metadata
with the entire accumulated answer map and a true completion flag; if
the write fails, the wizard leaves the submitting state and stays on
the last question with its collected answers intact (so submission can
be retried) and does not navigate; if the write succeeds, it navigates
to the dashboard. -/
theorem handleNext_last_step (meta : Metadata) (updateOk : Bool)
    (s : WizardState) (hLast : s.currentStep = QUESTIONS.length - 1) :
    writeCount (handleNext meta updateOk s).2 = 1 ∧
      writtenMetas (handleNext meta updateOk s).2 =
        [updatedMetadata meta s.answers] ∧
      updatedMetadata meta s.answers "onboardingAnswers" =
        some (.answerMap s.answers) ∧
      updatedMetadata meta s.answers "hasCompletedOnboarding" =
        some (.bool true) ∧
      (updateOk = false →
        (handleNext meta updateOk s).1.currentStep = s.currentStep ∧
        (handleNext meta updateOk s).1.answers = s.answers ∧
        (handleNext meta updateOk s).1.isSubmitting = false ∧
        navigatesTo "/dashboard" (handleNext meta updateOk s).2 = false) ∧
      (updateOk = true →
        navigatesTo "/dashboard" (handleNext meta updateOk s).2 = true) := by
  cases updateOk <;>
    simp [handleNext, hLast, writeCount, writtenMetas, navigatesTo] <;>
    exact ⟨rfl, rfl⟩

/-- Witness for C3 (amended): submitting the filled wizard from the
last question with a failing write performs one write and keeps the
answers. -/
theorem handleNext_last_step_witness :
    writeCount (handleNext emptyMetadata false lastStepState).2 = 1 ∧
      (handleNext emptyMetadata false lastStepState).1.answers =
        filledAnswers := by
  have h := handleNext_last_step emptyMetadata false lastStepState rfl
  exact ⟨h.1, (h.2.2.2.2.1 rfl).2.1⟩

/-- C4: in every reachable wizard state, the forward transition is
enabled exactly when the current question's answer satisfies its type
constraint — a string answer that is non-empty after trimming for a
text question, a defined boolean (`false` just as `true`) for a yes/no
question. -/
theorem canProceed_iff_type_constraint (s : WizardState) (q : Question)
    (h : Reachable s) (hq : QUESTIONS.get? s.currentStep = some q) :
    canProceed q s.answers =
      specTypeConstraint q (lookupAnswer s.answers q.id) := by
  have hwt := (reachable_wizard_inv h).2
  have hqmem : q ∈ QUESTIONS := List.get?_mem hq
  rw [wellTypedAnswers, List.all_eq_true] at hwt
  have hmatch := hwt q hqmem
  cases hqt : q.type with
  | text =>
    simp only [canProceed, specTypeConstraint, hqt]
    cases hlk : lookupAnswer s.answers q.id with
    | none => rfl
    | some a =>
      cases a with
      | str str => exact decide_length_pos_eq_not_beq_empty str.trim
      | bool b => rfl
  | boolean =>
    simp only [canProceed, specTypeConstraint, hqt]
    cases hlk : lookupAnswer s.answers q.id with
    | none => rfl
    | some a =>
      cases a with
      | bool b => rfl
      | str str =>
        rw [hlk, hqt] at hmatch
        exact absurd hmatch (by simp [answerMatches])

/-- Witness for C4: in the reachable state where a location has been
typed, the enablement of the forward transition coincides with the type
constraint (here both sides hold). -/
theorem canProceed_iff_type_constraint_witness :
    canProceed { id := "location", type := .text } typedState.answers =
      specTypeConstraint { id := "location", type := .text }
        (lookupAnswer typedState.answers "location") :=
  canProceed_iff_type_constraint typedState
    { id := "location", type := .text }
    (Reachable.step (.input "New York, NY") Reachable.init) rfl

/-- C10: every reachable wizard state keeps its step index within the
range 0 to N-1, so the current-question lookup is defined; the forward
transition increments the step exactly on non-last steps and leaves it
unchanged on the last step, and the backward transition decrements the
step exactly when it is positive. -/
theorem wizard_step_invariant (s : WizardState) (h : Reachable s) :
    s.currentStep < QUESTIONS.length ∧
      (QUESTIONS.get? s.currentStep).isSome = true ∧
      (∀ meta ok, s.currentStep ≠ QUESTIONS.length - 1 →
        (handleNext meta ok s).1.currentStep = s.currentStep + 1) ∧
      (∀ meta ok, s.currentStep = QUESTIONS.length - 1 →
        (handleNext meta ok s).1.currentStep = s.currentStep) ∧
      (0 < s.currentStep →
        (handleBack s).currentStep = s.currentStep - 1) ∧
      (s.currentStep = 0 → (handleBack s).currentStep = s.currentStep) := by
  have hlt := (reachable_wizard_inv h).1
  refine ⟨hlt, ?_, ?_, ?_, ?_, ?_⟩
  · rw [List.get?_eq_get hlt]
    rfl
  · intro meta ok hne
    simp [handleNext, hne]
  · intro meta ok hlast
    cases ok <;> simp [handleNext, hlast]
  · intro h0
    have hne : ¬(s.currentStep = 0) := by omega
    simp [handleBack, h0]
  · intro h0
    simp [handleBack, h0]

/-- Witness for C10: the initial wizard state is in range and its
question lookup is defined. -/
theorem wizard_step_invariant_witness :
    initialWizardState.currentStep < QUESTIONS.length ∧
      (QUESTIONS.get? initialWizardState.currentStep).isSome = true :=
  ⟨(wizard_step_invariant initialWizardState Reachable.init).1,
    (wizard_step_invariant initialWizardState Reachable.init).2.1⟩

end PolicyPulse
